import Mathlib

/-!
Verification development for the trading-bot signal-generation and
position-management engine.

The embedding is shallow: JavaScript numbers are modelled as exact
rationals, together with an explicit type `JNum` carrying the IEEE
special values (Infinity, -Infinity, NaN) at the one place the source
can produce them (the RSI quotient of average gain over average loss,
and the arithmetic downstream of it).  JavaScript arrays of numbers are
Lean lists of rationals, in the same order.  Functions that can throw at
runtime are embedded in `Except JSErr`.  Stateful class methods become
explicit state-passing functions; clock reads become explicit integer
millisecond parameters.
-/

set_option allowUnsafeReducibility true
attribute [semireducible] Rat.add Rat.mul Rat.inv Rat.sub Rat.ofScientific
set_option maxRecDepth 10000

deriving instance DecidableEq for Except

namespace TradingBot

/-- JavaScript runtime errors relevant to the embedded code paths:
a ReferenceError (access to a block-scoped binding inside its temporal
dead zone) and a TypeError (property access on undefined). -/
inductive JSErr where
  | referenceErr
  | typeErr
deriving DecidableEq

/-- JavaScript number values as produced by the embedded arithmetic:
finite doubles are modelled as exact rationals, plus Infinity, -Infinity
and NaN.  Signed zero is not distinguished; division by the unsigned
zero follows the behaviour of division by JavaScript positive zero. -/
inductive JNum where
  | num (q : ℚ)
  | inf
  | ninf
  | nan
deriving DecidableEq

namespace JNum

/-- JavaScript addition on `JNum` (NaN propagates; Infinity plus
-Infinity is NaN). -/
def add : JNum → JNum → JNum
  | nan, _ => nan
  | _, nan => nan
  | inf, ninf => nan
  | ninf, inf => nan
  | inf, _ => inf
  | _, inf => inf
  | ninf, _ => ninf
  | _, ninf => ninf
  | num a, num b => num (a + b)

/-- JavaScript subtraction on `JNum`. -/
def sub : JNum → JNum → JNum
  | nan, _ => nan
  | _, nan => nan
  | inf, inf => nan
  | ninf, ninf => nan
  | inf, _ => inf
  | ninf, _ => ninf
  | num _, inf => ninf
  | num _, ninf => inf
  | num a, num b => num (a - b)

/-- JavaScript multiplication on `JNum` (Infinity times zero is NaN). -/
def mul : JNum → JNum → JNum
  | nan, _ => nan
  | _, nan => nan
  | num a, num b => num (a * b)
  | inf, inf => inf
  | inf, ninf => ninf
  | ninf, inf => ninf
  | ninf, ninf => inf
  | inf, num b => if 0 < b then inf else if b < 0 then ninf else nan
  | num a, inf => if 0 < a then inf else if a < 0 then ninf else nan
  | ninf, num b => if 0 < b then ninf else if b < 0 then inf else nan
  | num a, ninf => if 0 < a then ninf else if a < 0 then inf else nan

/-- JavaScript division on `JNum`: a nonzero finite value divided by
zero is a signed Infinity, zero divided by zero is NaN, a finite value
divided by an Infinity is zero. -/
def div : JNum → JNum → JNum
  | nan, _ => nan
  | _, nan => nan
  | num a, num b =>
      if b = 0 then (if 0 < a then inf else if a < 0 then ninf else nan)
      else num (a / b)
  | num _, inf => num 0
  | num _, ninf => num 0
  | inf, inf => nan
  | inf, ninf => nan
  | ninf, inf => nan
  | ninf, ninf => nan
  | inf, num b => if b < 0 then ninf else inf
  | ninf, num b => if b < 0 then inf else ninf

/-- JavaScript strict less-than on `JNum`: any comparison involving NaN
is false. -/
def lt : JNum → JNum → Bool
  | nan, _ => false
  | _, nan => false
  | inf, _ => false
  | ninf, inf => true
  | ninf, num _ => true
  | ninf, ninf => false
  | num _, inf => true
  | num _, ninf => false
  | num a, num b => decide (a < b)

/-- JavaScript strict greater-than on `JNum`. -/
def gt (a b : JNum) : Bool := lt b a

end JNum

/-! ## Indicator library (src/utils/technicalAnalysis.js)

All call sites in the repository use positive periods (5, 14, 20); the
divisions by `period` below are exact rational divisions, matching
JavaScript for every positive period.
-/

/-- Simple moving average: for each index `i` from `period - 1` to the
end, the mean of the window `slice(i - period + 1, i + 1)`.  Returns the
empty list when the series is shorter than `period`. -/
def calculateSMA (prices : List ℚ) (period : ℕ) : List ℚ :=
  if prices.length < period then []
  else
    (List.range' (period - 1) (prices.length - (period - 1))).map
      (fun i => (((prices.drop (i + 1 - period)).take period).sum) / (period : ℚ))

/-- Exponential moving average: seeded with the mean of the first
`period` prices, then `price * k + prev * (1 - k)` with
`k = 2 / (period + 1)`.  Returns the empty list when the series is
shorter than `period`. -/
def calculateEMA (prices : List ℚ) (period : ℕ) : List ℚ :=
  if prices.length < period then []
  else
    let multiplier : ℚ := 2 / ((period : ℚ) + 1)
    let seed : ℚ := ((prices.take period).sum) / (period : ℚ)
    List.scanl (fun prev p => p * multiplier + prev * (1 - multiplier)) seed
      (prices.drop period)

/-- One RSI value from a pair of average gain / average loss, exactly as
the source computes it: `rs = avgGain / avgLoss` (a JavaScript division,
so 0 / 0 is NaN and positive / 0 is Infinity), then
`100 - 100 / (1 + rs)`. -/
def rsiFromAverages (avgGain avgLoss : ℚ) : JNum :=
  let rs := JNum.div (JNum.num avgGain) (JNum.num avgLoss)
  JNum.sub (JNum.num 100) (JNum.div (JNum.num 100) (JNum.add (JNum.num 1) rs))

/-- Relative strength index: per-step gains and losses over the deltas,
seed averages over the first `period` of them, Wilder smoothing
afterwards.  Returns the empty list when the series is shorter than
`period + 1`.  The averages themselves are exact rationals; the special
values only arise from the `avgGain / avgLoss` quotient. -/
def calculateRSI (prices : List ℚ) (period : ℕ) : List JNum :=
  if prices.length < period + 1 then []
  else
    let changes := List.zipWith (fun a b => b - a) prices prices.tail
    let gains := changes.map (fun c => if 0 < c then c else 0)
    let losses := changes.map (fun c => if c < 0 then |c| else 0)
    let avgGain0 : ℚ := ((gains.take period).sum) / (period : ℚ)
    let avgLoss0 : ℚ := ((losses.take period).sum) / (period : ℚ)
    let averages := List.scanl
      (fun (av : ℚ × ℚ) (gl : ℚ × ℚ) =>
        ((av.1 * ((period : ℚ) - 1) + gl.1) / (period : ℚ),
         (av.2 * ((period : ℚ) - 1) + gl.2) / (period : ℚ)))
      (avgGain0, avgLoss0) ((gains.zip losses).drop period)
    averages.map (fun av => rsiFromAverages av.1 av.2)

/-- Average true range: the true range of step `i` is
`max(high - low, |high - prevClose|, |low - prevClose|)`; seed is the
mean of the first `period` true ranges, then Wilder smoothing.  Returns
the empty list when the series is shorter than `period + 1`.  The three
input lists have equal length at every call site. -/
def calculateATR (highs lows closes : List ℚ) (period : ℕ) : List ℚ :=
  if highs.length < period + 1 then []
  else
    let trueRanges := List.zipWith
      (fun (hl : ℚ × ℚ) prevClose =>
        max (hl.1 - hl.2) (max |hl.1 - prevClose| |hl.2 - prevClose|))
      (highs.tail.zip lows.tail) closes
    let seed : ℚ := ((trueRanges.take period).sum) / (period : ℚ)
    List.scanl (fun avg tr => (avg * ((period : ℚ) - 1) + tr) / (period : ℚ)) seed
      (trueRanges.drop period)

/-- Stop-loss and take-profit levels. -/
structure Levels where
  stopLoss : ℚ
  takeProfit : ℚ
deriving DecidableEq

/-- Dynamic levels from entry price, ATR and direction: 2 ATR stop and
3 ATR target, mirrored for sell. -/
def calculateDynamicLevels (entryPrice atr : ℚ) (direction : String) : Levels :=
  let atrMultiplier : ℚ := 2
  if direction = "buy" then
    ⟨entryPrice - atr * atrMultiplier, entryPrice + atr * (atrMultiplier + 1)⟩
  else
    ⟨entryPrice + atr * atrMultiplier, entryPrice - atr * (atrMultiplier + 1)⟩

example : calculateSMA [1, 2, 3] 2 = [3/2, 5/2] := by decide
example : calculateEMA [1, 2, 3] 2 = [3/2, 5/2] := by decide
example : calculateRSI [1, 2, 3] 2 = [JNum.num 100] := by decide
example : calculateRSI [5, 5, 5] 2 = [JNum.nan] := by decide

/-! ## Signal generation -/

/-- One OHLC candle.  The `open` and `volume` fields of the exchange
payload are never read by the embedded functions and are omitted.
Prices are already numeric in the model, so the `parseFloat` calls of
the source are the identity. -/
structure Candle where
  timestamp : ℤ
  high : ℚ
  low : ℚ
  close : ℚ
deriving DecidableEq

/-- The latest indicator values attached to a signal. -/
structure Indicators where
  rsi : JNum
  ema5 : ℚ
  ema20 : ℚ
  atr : ℚ
  price : ℚ
deriving DecidableEq

/-- Result of `generateTradingSignal`.  The `reason` field of the source
is a log-only interpolated string, never read by any caller, and is
omitted.  `indicators` is `none` exactly when the source object is
returned without an `indicators` property. -/
structure SignalRes where
  signal : String
  confidence : ℚ
  indicators : Option Indicators
deriving DecidableEq

/-- Composite trading signal: three votes (RSI thresholds, EMA5 versus
EMA20 crossover, price versus EMA20), confidence is the winning vote
share, and the signal is non-neutral only when confidence is at least
0.6 and one side strictly outnumbers the other.  The vote counters
mirror the else-if chains of the source; each counter is a JavaScript
number, modelled as a rational.  RSI comparisons use the JavaScript
comparison semantics, under which NaN compares false. -/
def signalFromIndicators (currentRSI : JNum)
    (currentEMA5 currentEMA20 currentATR currentPrice : ℚ) : SignalRes :=
  let bull1 : ℚ := if JNum.lt currentRSI (JNum.num 30) then 1 else 0
  let bear1 : ℚ :=
    if JNum.lt currentRSI (JNum.num 30) then 0
    else if JNum.gt currentRSI (JNum.num 70) then 1 else 0
  let tot1 : ℚ :=
    if JNum.lt currentRSI (JNum.num 30) then 1
    else if JNum.gt currentRSI (JNum.num 70) then 1 else 0
  let bull2 : ℚ := if currentEMA5 > currentEMA20 then bull1 + 1 else bull1
  let bear2 : ℚ :=
    if currentEMA5 > currentEMA20 then bear1
    else if currentEMA5 < currentEMA20 then bear1 + 1 else bear1
  let tot2 : ℚ :=
    if currentEMA5 > currentEMA20 then tot1 + 1
    else if currentEMA5 < currentEMA20 then tot1 + 1 else tot1
  let bull3 : ℚ := if currentPrice > currentEMA20 then bull2 + 1 else bull2
  let bear3 : ℚ :=
    if currentPrice > currentEMA20 then bear2
    else if currentPrice < currentEMA20 then bear2 + 1 else bear2
  let tot3 : ℚ :=
    if currentPrice > currentEMA20 then tot2 + 1
    else if currentPrice < currentEMA20 then tot2 + 1 else tot2
  let confidence : ℚ := if tot3 > 0 then max bull3 bear3 / tot3 else 0
  let signal : String :=
    if confidence ≥ 0.6 then
      if bull3 > bear3 then "bullish"
      else if bear3 > bull3 then "bearish"
      else "neutral"
    else "neutral"
  ⟨signal, confidence * 100,
    some ⟨currentRSI, currentEMA5, currentEMA20, currentATR, currentPrice⟩⟩

/-- Composite trading signal; the vote evaluation on the latest
indicator values lives in `signalFromIndicators`. -/
def generateTradingSignal (candleData : List Candle) : SignalRes :=
  if candleData.length < 50 then ⟨"neutral", 0, none⟩
  else
    let closes := candleData.map (·.close)
    let highs := candleData.map (·.high)
    let lows := candleData.map (·.low)
    let rsi := calculateRSI closes 14
    let ema5 := calculateEMA closes 5
    let ema20 := calculateEMA closes 20
    let atr := calculateATR highs lows closes 14
    if rsi = [] ∨ ema5 = [] ∨ ema20 = [] ∨ atr = [] then ⟨"neutral", 0, none⟩
    else
      signalFromIndicators (rsi.getLastD JNum.nan) (ema5.getLastD 0)
        (ema20.getLastD 0) (atr.getLastD 0) (closes.getLastD 0)

/-- A constant candle at a given price, for concrete test inputs. -/
def flatCandle (t : ℤ) (p : ℚ) : Candle := ⟨t, p, p, p⟩

/-- Fifty identical candles: a concrete input on which every vote
abstains (RSI is NaN, the EMAs and the price coincide). -/
def flatCandles50 : List Candle := (List.range 50).map (fun i => flatCandle i 100)

/-- Fifty-one candles with strictly increasing prices `1, 2, ..., 51`:
a concrete input producing a bullish signal with confidence 200/3. -/
def risingCandles51 : List Candle :=
  (List.range 51).map (fun i => ⟨(i : ℤ), (i : ℚ) + 1, (i : ℚ) + 1, (i : ℚ) + 1⟩)

example : (generateTradingSignal flatCandles50).signal = "neutral" ∧
    (generateTradingSignal flatCandles50).confidence = 0 := by decide
example : (generateTradingSignal risingCandles51).signal = "bullish" ∧
    (generateTradingSignal risingCandles51).confidence = 200/3 := by decide

/-! ## Position ledger (PositionManager in the trade-bot module)

Class methods become functions on the list of positions.  The
constructor calls `Date.now()` for the id and `new Date()` for the entry
and exit times; both clock reads are passed in as one explicit integer
millisecond parameter `now`. -/

/-- A ledger position.  Fields that the source only assigns at close
time are `Option`s, `none` while the property is still absent. -/
structure Position where
  id : ℤ
  entryPrice : ℚ
  size : ℚ
  direction : String
  stopLoss : ℚ
  takeProfit : ℚ
  entryTime : ℤ
  status : String
  exitPrice : Option ℚ := none
  exitTime : Option ℤ := none
  pnl : Option ℚ := none
  reason : Option String := none
deriving DecidableEq

/-- Ledger open: builds the position record with `id = Date.now()`,
appends it to the collection, and returns it. -/
def addPosition (positions : List Position) (now : ℤ) (entryPrice size : ℚ)
    (direction : String) (stopLoss takeProfit : ℚ) : Position × List Position :=
  let position : Position :=
    { id := now, entryPrice := entryPrice, size := size, direction := direction,
      stopLoss := stopLoss, takeProfit := takeProfit, entryTime := now,
      status := "open" }
  (position, positions ++ [position])

/-- The closed version of a position, with the direction-aware pnl of
the source. -/
def closeFields (p : Position) (exitPrice : ℚ) (now : ℤ) (reason : String) : Position :=
  { p with
    exitPrice := some exitPrice,
    exitTime := some now,
    status := "closed",
    pnl := some (if p.direction = "buy"
      then (exitPrice - p.entryPrice) * p.size
      else (p.entryPrice - exitPrice) * p.size),
    reason := some reason }

/-- Ledger close: `find` locates the first position with the given id
and status open and mutates it in place; absent a match the method
returns null and the collection is untouched. -/
def closePosition (positions : List Position) (positionId : ℤ) (exitPrice : ℚ)
    (now : ℤ) (reason : String) : Option Position × List Position :=
  match positions with
  | [] => (none, [])
  | p :: rest =>
    if p.id = positionId ∧ p.status = "open" then
      let closed := closeFields p exitPrice now reason
      (some closed, closed :: rest)
    else
      let tailResult := closePosition rest positionId exitPrice now reason
      (tailResult.1, p :: tailResult.2)

/-- All positions with status open, in insertion order. -/
def getOpenPositions (positions : List Position) : List Position :=
  positions.filter (fun p => p.status = "open")

/-- Sum of entry price times size over open positions. -/
def getTotalInvested (positions : List Position) : ℚ :=
  ((positions.filter (fun p => p.status = "open")).map
    (fun p => p.entryPrice * p.size)).sum

/-! ## Trading decision engine (runEnhancedAutoTrade and helpers)

The asynchronous collaborators (exchange, switch storage, broadcast) are
modelled as explicit oracle inputs: the enable flag, the time-filter
verdict, the fetched price, balances and candles, and the order
acknowledgements that `placeOrder` would return.  Log broadcasts carry
no state and are dropped, except where a log line performs a property
access that can throw. -/

/-- The fields of the TRADING_CONFIG literal used by the embedded
functions. -/
def MIN_ORDER_VALUE_USDT : ℚ := 0.14
def MAX_CONSECUTIVE_TRADES : ℕ := 3
def MIN_SIGNAL_CONFIDENCE : ℚ := 60
def INITIAL_POSITION_SIZE : ℚ := 0.3
def MAX_POSITIONS : ℕ := 3

/-- The mutable trading-state record.  Only the three fields the module
ever reads or writes are modelled; `consecutiveTrades` only ever takes
nonnegative integer values (incremented by one or reset to zero). -/
structure TradingState where
  lastAction : Option String := none
  lastTradePrice : Option ℚ := none
  consecutiveTrades : ℕ := 0
deriving DecidableEq

/-- An order acknowledgement from the exchange; only the `code` field is
inspected (the message string is log-only). -/
structure OrderRes where
  code : String
deriving DecidableEq

/-- The optional-chaining test `orderRes?.code === "0"` on a possibly
null response. -/
def orderOk (orderRes : Option OrderRes) : Bool :=
  (orderRes.map (fun r => r.code)) = some "0"

/-- Position size from balance, confidence and price: 30 percent of
balance scaled by confidence, in asset units, floored at the exchange
minimum order value.  Prices are positive at every call site, so the
rational divisions agree with JavaScript. -/
def calculatePositionSize (availableBalance signalConfidence currentPrice : ℚ) : ℚ :=
  let baseSize := availableBalance * INITIAL_POSITION_SIZE
  let scaled := baseSize * (signalConfidence / 100)
  let minSize := MIN_ORDER_VALUE_USDT / currentPrice
  max (scaled / currentPrice) minSize

/-- Scale-in test: an open position exists, the cap is not reached, the
signal matches the direction of the most recent open position, and the
price has moved at least 2 percent adversely to that entry. -/
def shouldScaleIn (signal : SignalRes) (currentPrice : ℚ)
    (openPositions : List Position) : Bool :=
  if openPositions.length = 0 then false
  else if openPositions.length ≥ MAX_POSITIONS then false
  else
    match openPositions.getLast? with
    | none => false
    | some lastPosition =>
      if signal.signal ≠ lastPosition.direction then false
      else if lastPosition.direction = "buy" then
        decide (currentPrice < lastPosition.entryPrice * 0.98)
      else
        decide (currentPrice > lastPosition.entryPrice * 1.02)

/-- Result value of the execute helpers; the reason strings are the
static parts of the messages of the source. -/
structure TradeResult where
  success : Bool
  reason : Option String := none
  position : Option Position := none
deriving DecidableEq

/-- Opens a new position: sizes the order, rejects below the exchange
minimum, computes dynamic levels (a property access on
`signal.indicators`, which throws a TypeError when the signal carries no
indicators), places the order, and on a confirmed fill records the
position and updates the trading state, incrementing
`consecutiveTrades`. -/
def executeNewPosition (signal : SignalRes) (currentPrice availableBalance : ℚ)
    (orderRes : Option OrderRes) (now : ℤ) (st : TradingState)
    (positions : List Position) :
    Except JSErr (TradeResult × TradingState × List Position) :=
  let positionSize := calculatePositionSize availableBalance signal.confidence currentPrice
  let orderValue := positionSize * currentPrice
  if orderValue < MIN_ORDER_VALUE_USDT then
    .ok (⟨false, some "Order value below minimum", none⟩, st, positions)
  else
    match signal.indicators with
    | none => .error .typeErr
    | some ind =>
      let levels := calculateDynamicLevels currentPrice ind.atr signal.signal
      if orderOk orderRes then
        let added := addPosition positions now currentPrice positionSize
          signal.signal levels.stopLoss levels.takeProfit
        .ok (⟨true, none, some added.1⟩,
          { st with lastAction := some signal.signal,
                    lastTradePrice := some currentPrice,
                    consecutiveTrades := st.consecutiveTrades + 1 },
          added.2)
      else
        .ok (⟨false, some "Order failed", none⟩, st, positions)

/-- Scales into an existing position: half of the standard position
size, same minimum-value rejection, order placement.  The function
returns without touching the trading state or the ledger in every
branch. -/
def executeScaleIn (signal : SignalRes) (currentPrice availableBalance : ℚ)
    (orderRes : Option OrderRes) (st : TradingState) (positions : List Position) :
    TradeResult × TradingState × List Position :=
  let scaleInSize := calculatePositionSize availableBalance signal.confidence currentPrice * 0.5
  let orderValue := scaleInSize * currentPrice
  if orderValue < MIN_ORDER_VALUE_USDT then
    (⟨false, some "Scale-in order value below minimum", none⟩, st, positions)
  else if orderOk orderRes then
    (⟨true, none, none⟩, st, positions)
  else
    (⟨false, some "Scale-in failed", none⟩, st, positions)

/-- Dispatch between scale-in, new position and the position cap. -/
def executeTrade (signal : SignalRes) (currentPrice availableBalance availableSOL : ℚ)
    (orderRes : Option OrderRes) (now : ℤ) (st : TradingState)
    (positions : List Position) :
    Except JSErr (TradeResult × TradingState × List Position) :=
  let openPositions := getOpenPositions positions
  if shouldScaleIn signal currentPrice openPositions then
    .ok (executeScaleIn signal currentPrice availableBalance orderRes st positions)
  else if openPositions.length < MAX_POSITIONS then
    executeNewPosition signal currentPrice availableBalance orderRes now st positions
  else
    .ok (⟨false, some "Maximum positions reached", none⟩, st, positions)

/-- The stop-loss / take-profit trigger of managePositions, mirroring
the two else-if chains of the source (the take-profit chain can
overwrite the stop-loss verdict). -/
def shouldCloseAt (position : Position) (currentPrice : ℚ) : Bool × String :=
  let first :=
    if position.direction = "buy" ∧ currentPrice ≤ position.stopLoss then (true, "Stop Loss")
    else if position.direction = "sell" ∧ currentPrice ≥ position.stopLoss then (true, "Stop Loss")
    else (false, "")
  if position.direction = "buy" ∧ currentPrice ≥ position.takeProfit then (true, "Take Profit")
  else if position.direction = "sell" ∧ currentPrice ≤ position.takeProfit then (true, "Take Profit")
  else first

/-- Walks the snapshot of open positions; for each triggered one an
opposing order is placed (consuming the next oracle acknowledgement) and
the ledger close runs only on a confirmed fill. -/
def managePositions (currentPrice : ℚ) (now : ℤ) (orders : List (Option OrderRes))
    (positions : List Position) : List Position :=
  ((getOpenPositions positions).foldl
    (fun (acc : List Position × List (Option OrderRes)) position =>
      let verdict := shouldCloseAt position currentPrice
      if verdict.1 then
        let orderRes := acc.2.headD none
        let rest := acc.2.tail
        if orderOk orderRes then
          ((closePosition acc.1 position.id currentPrice now verdict.2).2, rest)
        else (acc.1, rest)
      else acc)
    (positions, orders)).1

/-- The oracle inputs of one evaluation cycle: the switch verdict, the
time-filter verdict, the fetched price, balances and candles, the order
acknowledgements consumed by position management, the acknowledgement of
the entry or scale-in order, and the cycle clock. -/
structure CycleInput where
  enabled : Bool
  isGoodTime : Bool
  currentPrice : Option ℚ
  availableUSDT : ℚ
  availableSOL : ℚ
  recentCandles : Option (List Candle)
  manageOrders : List (Option OrderRes)
  tradeOrder : Option OrderRes
  now : ℤ
deriving DecidableEq

/-- The process-lifetime mutable state of the module: the trading state
and the position ledger. -/
structure BotState where
  tradingState : TradingState
  positions : List Position
deriving DecidableEq

/-- One evaluation cycle.  The try/catch of the source swallows every
error, so a thrown TypeError leaves the state as mutated up to the throw
point.  The signal-analysis log line reads `signal.indicators.rsi`
before position management runs, so a signal without indicators ends the
cycle there (unreachable for candle snapshots of length at least 50).
ENABLE_TIME_FILTERS is true in the configuration literal, so the time
filter always runs. -/
def runEnhancedAutoTrade (input : CycleInput) (st : BotState) : BotState :=
  if ¬ input.enabled then
    { st with tradingState := { st.tradingState with lastAction := none } }
  else if ¬ input.isGoodTime then st
  else
    match input.currentPrice with
    | none => st
    | some currentPrice =>
      match input.recentCandles with
      | none => st
      | some recentCandles =>
        if recentCandles.length < 50 then st
        else
          let signal := generateTradingSignal recentCandles
          match signal.indicators with
          | none => st
          | some _ =>
            let positions1 := managePositions currentPrice input.now
              input.manageOrders st.positions
            if signal.confidence < MIN_SIGNAL_CONFIDENCE then
              { st with positions := positions1 }
            else if st.tradingState.consecutiveTrades ≥ MAX_CONSECUTIVE_TRADES then
              { st with positions := positions1 }
            else if signal.signal ≠ "neutral" then
              match executeTrade signal currentPrice input.availableUSDT
                input.availableSOL input.tradeOrder input.now
                st.tradingState positions1 with
              | .error _ => { st with positions := positions1 }
              | .ok result => { tradingState := result.2.1, positions := result.2.2 }
            else
              { tradingState := { st.tradingState with consecutiveTrades := 0 },
                positions := positions1 }

/-! ## Backtest engine (src/utils/backtest.js)

The engine is pure apart from one defect: inside the entry block the
source declares `const positionSize` (shadowing the configuration value
of the same name) on the line after the one that reads it, so the read
happens inside the temporal dead zone of the inner binding and every
execution of the block throws a ReferenceError.  The embedding therefore
returns that error whenever the entry condition is satisfied. -/

/-- Backtest configuration with the defaults of the source. -/
structure BacktestConfig where
  initialBalance : ℚ := 1000
  maxPositions : ℕ := 3
  minSignalConfidence : ℚ := 60
  positionSize : ℚ := 0.3
  enableStopLoss : Bool := true
  enableTakeProfit : Bool := true
deriving DecidableEq

/-- A simulated open position of the backtest.  The source also stores
the full signal object on the position; that field is never read and is
omitted. -/
structure BTPosition where
  direction : String
  entryPrice : ℚ
  size : ℚ
  stopLoss : ℚ
  takeProfit : ℚ
  entryTime : ℤ
deriving DecidableEq

/-- A recorded backtest trade. -/
structure BTTrade where
  entryTime : ℤ
  exitTime : ℤ
  direction : String
  entryPrice : ℚ
  exitPrice : ℚ
  size : ℚ
  pnl : ℚ
  reason : String
deriving DecidableEq

/-- Running state of the backtest loop. -/
structure BTState where
  balance : ℚ
  positions : List BTPosition
  trades : List BTTrade
  totalTrades : ℕ
  winningTrades : ℕ
  losingTrades : ℕ
  maxDrawdown : ℚ
  peakBalance : ℚ
deriving DecidableEq

/-- The results object.  The source formats several statistics with
`toFixed(2)` (a decimal string); the model keeps the exact rational
those strings denote, via `toFixed2`.  The `config` echo field is
omitted. -/
structure BacktestResults where
  initialBalance : ℚ
  finalBalance : ℚ
  totalReturn : ℚ
  totalTrades : ℕ
  winningTrades : ℕ
  losingTrades : ℕ
  winRate : ℚ
  maxDrawdown : ℚ
  avgWin : ℚ
  avgLoss : ℚ
  profitFactor : ℚ
  trades : List BTTrade
deriving DecidableEq

/-- `Number.prototype.toFixed(2)` as exact decimal rounding: nearest
multiple of 1/100, ties toward positive infinity. -/
def toFixed2 (q : ℚ) : ℚ := (⌊q * 100 + 1/2⌋ : ℚ) / 100

/-- One pass of the position filter: direction-aware stop-loss and
take-profit checks against the close of the current candle (the
take-profit check only runs when the stop-loss did not already
trigger), realising pnl into the balance, pushing the trade record and
dropping the position on close. -/
def btClosePass (config : BacktestConfig) (currentCandle : Candle) (st : BTState) : BTState :=
  st.positions.foldl
    (fun acc position =>
      let slVerdict :=
        if config.enableStopLoss then
          if position.direction = "buy" ∧ currentCandle.close ≤ position.stopLoss then
            (true, "Stop Loss")
          else if position.direction = "sell" ∧ currentCandle.close ≥ position.stopLoss then
            (true, "Stop Loss")
          else (false, "")
        else (false, "")
      let verdict :=
        if config.enableTakeProfit ∧ ¬ slVerdict.1 then
          if position.direction = "buy" ∧ currentCandle.close ≥ position.takeProfit then
            (true, "Take Profit")
          else if position.direction = "sell" ∧ currentCandle.close ≤ position.takeProfit then
            (true, "Take Profit")
          else slVerdict
        else slVerdict
      if verdict.1 then
        let pnl :=
          if position.direction = "buy" then
            (currentCandle.close - position.entryPrice) * position.size
          else
            (position.entryPrice - currentCandle.close) * position.size
        { acc with
          balance := acc.balance + pnl,
          totalTrades := acc.totalTrades + 1,
          winningTrades := if pnl > 0 then acc.winningTrades + 1 else acc.winningTrades,
          losingTrades := if pnl > 0 then acc.losingTrades else acc.losingTrades + 1,
          trades := acc.trades ++
            [⟨position.entryTime, currentCandle.timestamp, position.direction,
              position.entryPrice, currentCandle.close, position.size, pnl, verdict.2⟩] }
      else { acc with positions := acc.positions ++ [position] })
    { st with positions := [] }

/-- One iteration of the backtest loop at index `i` (always in bounds at
every call).  The entry block throws a ReferenceError whenever its
condition holds, because its first line reads the shadowing inner
`const positionSize` inside the temporal dead zone. -/
def btStep (config : BacktestConfig) (data : List Candle) (st : BTState) (i : ℕ) :
    Except JSErr BTState :=
  let currentCandle := data.getD i ⟨0, 0, 0, 0⟩
  let candleData := data.take (i + 1)
  let signal := generateTradingSignal candleData
  let st1 :=
    if config.enableStopLoss ∨ config.enableTakeProfit then
      btClosePass config currentCandle st
    else st
  if signal.confidence ≥ config.minSignalConfidence ∧ signal.signal ≠ "neutral" ∧
      st1.positions.length < config.maxPositions then
    .error .referenceErr
  else
    let currentTotalValue :=
      st1.balance + (st1.positions.map (fun pos => pos.size * currentCandle.close)).sum
    if currentTotalValue > st1.peakBalance then
      .ok { st1 with peakBalance := currentTotalValue }
    else
      let drawdown := (st1.peakBalance - currentTotalValue) / st1.peakBalance * 100
      if drawdown > st1.maxDrawdown then .ok { st1 with maxDrawdown := drawdown }
      else .ok st1

/-- Force-close of one remaining position at the final price. -/
def btFinalClose (finalPrice : ℚ) (finalTime : ℤ) (st : BTState) (position : BTPosition) :
    BTState :=
  let pnl :=
    if position.direction = "buy" then (finalPrice - position.entryPrice) * position.size
    else (position.entryPrice - finalPrice) * position.size
  { st with
    balance := st.balance + pnl,
    totalTrades := st.totalTrades + 1,
    winningTrades := if pnl > 0 then st.winningTrades + 1 else st.winningTrades,
    losingTrades := if pnl > 0 then st.losingTrades else st.losingTrades + 1,
    trades := st.trades ++
      [⟨position.entryTime, finalTime, position.direction, position.entryPrice,
        finalPrice, position.size, pnl, "End of backtest"⟩] }

/-- The backtest engine: iterates from index 50 over the candle series
with an expanding signal window, applies exits and the (defective) entry
block, tracks peak balance and drawdown, force-closes survivors at the
last close, and assembles the statistics.  Reading the final price of an
empty series would be a property access on undefined, hence the
TypeError arm. -/
def runBacktest (historicalData : List Candle) (config : BacktestConfig) :
    Except JSErr BacktestResults := do
  let initialBalance := config.initialBalance
  let initSt : BTState := ⟨initialBalance, [], [], 0, 0, 0, 0, initialBalance⟩
  let loopSt ← (List.range' 50 (historicalData.length - 50)).foldlM
    (btStep config historicalData) initSt
  match historicalData.getLast? with
  | none => .error .typeErr
  | some lastCandle =>
    let finalPrice := lastCandle.close
    let st2 := loopSt.positions.foldl (btFinalClose finalPrice lastCandle.timestamp) loopSt
    let finalBalance := st2.balance
    let totalReturn := (finalBalance - initialBalance) / initialBalance * 100
    let winRate :=
      if st2.totalTrades > 0 then ((st2.winningTrades : ℚ) / (st2.totalTrades : ℚ)) * 100
      else 0
    let avgWin := ((st2.trades.filter (fun t => t.pnl > 0)).map (fun t => t.pnl)).sum /
      max (st2.winningTrades : ℚ) 1
    let avgLoss := ((st2.trades.filter (fun t => t.pnl < 0)).map (fun t => |t.pnl|)).sum /
      max (st2.losingTrades : ℚ) 1
    let profitFactor := if avgLoss > 0 then avgWin / avgLoss else 0
    .ok ⟨initialBalance, finalBalance, toFixed2 totalReturn, st2.totalTrades,
      st2.winningTrades, st2.losingTrades, toFixed2 winRate, toFixed2 st2.maxDrawdown,
      toFixed2 avgWin, toFixed2 avgLoss, toFixed2 profitFactor, st2.trades⟩

example : (runBacktest flatCandles50 {}).isOk = true := by decide

/-! ## Shared lemmas -/

set_option maxHeartbeats 4000000 in
/-- On any indicator values, a neutral composite signal carries
confidence at most 50: with three votes, each cast for at most one side,
a neutral outcome means either no votes or a tie, and a tie yields a
winning share of exactly one half. -/
theorem signalFromIndicators_neutral_le (r : JNum) (e5 e20 a p : ℚ)
    (h : (signalFromIndicators r e5 e20 a p).signal = "neutral") :
    (signalFromIndicators r e5 e20 a p).confidence ≤ 50 := by
  simp only [signalFromIndicators] at h ⊢
  split_ifs at h ⊢ <;>
    first
      | exact absurd h (by decide)
      | norm_num at *

/-- A neutral composite signal carries confidence at most 50, for every
candle input. -/
theorem generateTradingSignal_neutral_le (cd : List Candle)
    (h : (generateTradingSignal cd).signal = "neutral") :
    (generateTradingSignal cd).confidence ≤ 50 := by
  unfold generateTradingSignal at h ⊢
  dsimp only at h ⊢
  split_ifs at h ⊢
  · norm_num
  · norm_num
  · exact signalFromIndicators_neutral_le _ _ _ _ _ h

/-! ## Claims -/

/-- Claim C9: on fewer than 50 candles, generateTradingSignal returns
the neutral signal with confidence 0 and no indicators field. -/
theorem c9_insufficient_data (candleData : List Candle)
    (h : candleData.length < 50) :
    generateTradingSignal candleData = ⟨"neutral", 0, none⟩ := by
  unfold generateTradingSignal
  rw [if_pos h]

/-- Witness for C9 at the empty candle list. -/
theorem c9_insufficient_data_witness :
    generateTradingSignal [] = ⟨"neutral", 0, none⟩ :=
  c9_insufficient_data [] (by decide)

/-- Claim C10: whenever generateTradingSignal returns a neutral signal
on at least 50 candles, the returned confidence is at most 50; in
particular a neutral signal never carries confidence at least 60. -/
theorem c10_neutral_confidence (cd : List Candle) (h50 : 50 ≤ cd.length)
    (h : (generateTradingSignal cd).signal = "neutral") :
    (generateTradingSignal cd).confidence ≤ 50 ∧
    ¬ (generateTradingSignal cd).confidence ≥ 60 := by
  have hle := generateTradingSignal_neutral_le cd h
  exact ⟨hle, by linarith⟩

/-- Witness for C10 at fifty flat candles. -/
theorem c10_neutral_confidence_witness :
    (generateTradingSignal flatCandles50).confidence ≤ 50 ∧
    ¬ (generateTradingSignal flatCandles50).confidence ≥ 60 :=
  c10_neutral_confidence flatCandles50 (by decide) (by decide)

/-- Claim C6: dynamic levels are entry minus 2 ATR stop and entry plus
3 ATR target for buy, the mirror image for sell, with the stated order
and 1.5 ratio when the ATR is positive. -/
theorem c6_dynamic_levels (entryPrice atr : ℚ) (h : 0 < atr) :
    (calculateDynamicLevels entryPrice atr "buy").stopLoss = entryPrice - 2 * atr ∧
    (calculateDynamicLevels entryPrice atr "buy").takeProfit = entryPrice + 3 * atr ∧
    (calculateDynamicLevels entryPrice atr "buy").stopLoss < entryPrice ∧
    entryPrice < (calculateDynamicLevels entryPrice atr "buy").takeProfit ∧
    (calculateDynamicLevels entryPrice atr "buy").takeProfit - entryPrice =
      1.5 * (entryPrice - (calculateDynamicLevels entryPrice atr "buy").stopLoss) ∧
    (calculateDynamicLevels entryPrice atr "sell").stopLoss = entryPrice + 2 * atr ∧
    (calculateDynamicLevels entryPrice atr "sell").takeProfit = entryPrice - 3 * atr := by
  have hbuy : calculateDynamicLevels entryPrice atr "buy" =
      ⟨entryPrice - atr * 2, entryPrice + atr * (2 + 1)⟩ := by
    unfold calculateDynamicLevels; rw [if_pos rfl]
  have hsell : calculateDynamicLevels entryPrice atr "sell" =
      ⟨entryPrice + atr * 2, entryPrice - atr * (2 + 1)⟩ := by
    unfold calculateDynamicLevels; rw [if_neg (by decide)]
  rw [hbuy, hsell]
  dsimp only
  refine ⟨by linarith, by linarith, by linarith, by linarith, ?_, by linarith, by linarith⟩
  have h32 : (1.5 : ℚ) = 3 / 2 := by norm_num
  rw [h32]; ring

/-- Witness for C6 at entry 100 and ATR 2. -/
theorem c6_dynamic_levels_witness :
    (calculateDynamicLevels 100 2 "buy").stopLoss = 100 - 2 * 2 ∧
    (calculateDynamicLevels 100 2 "buy").takeProfit = 100 + 3 * 2 ∧
    (calculateDynamicLevels 100 2 "buy").stopLoss < 100 ∧
    (100 : ℚ) < (calculateDynamicLevels 100 2 "buy").takeProfit ∧
    (calculateDynamicLevels 100 2 "buy").takeProfit - 100 =
      1.5 * (100 - (calculateDynamicLevels 100 2 "buy").stopLoss) ∧
    (calculateDynamicLevels 100 2 "sell").stopLoss = 100 + 2 * 2 ∧
    (calculateDynamicLevels 100 2 "sell").takeProfit = 100 - 3 * 2 :=
  c6_dynamic_levels 100 2 (by norm_num)

/-- Claim C8: every indicator returns the empty sequence on series
shorter than its required minimum length (period for SMA and EMA,
period + 1 for RSI and ATR). -/
theorem c8_short_series_empty :
    (∀ (prices : List ℚ) (period : ℕ), prices.length < period →
      calculateSMA prices period = []) ∧
    (∀ (prices : List ℚ) (period : ℕ), prices.length < period →
      calculateEMA prices period = []) ∧
    (∀ (prices : List ℚ) (period : ℕ), prices.length < period + 1 →
      calculateRSI prices period = []) ∧
    (∀ (highs lows closes : List ℚ) (period : ℕ), highs.length < period + 1 →
      calculateATR highs lows closes period = []) := by
  refine ⟨fun prices period h => ?_, fun prices period h => ?_,
    fun prices period h => ?_, fun highs lows closes period h => ?_⟩
  · unfold calculateSMA; rw [if_pos h]
  · unfold calculateEMA; rw [if_pos h]
  · unfold calculateRSI; rw [if_pos h]
  · unfold calculateATR; rw [if_pos h]

/-- Witness for C8 on concrete short series. -/
theorem c8_short_series_empty_witness :
    calculateSMA [1] 2 = [] ∧ calculateEMA [1] 2 = [] ∧
    calculateRSI [1, 2] 2 = [] ∧ calculateATR [1] [1] [1] 1 = [] :=
  ⟨c8_short_series_empty.1 [1] 2 (by decide),
   c8_short_series_empty.2.1 [1] 2 (by decide),
   c8_short_series_empty.2.2.1 [1, 2] 2 (by decide),
   c8_short_series_empty.2.2.2 [1] [1] [1] 1 (by decide)⟩

/-- Claim C3 (failing input): on a constant price series of length 15,
both window averages are zero, the JavaScript quotient 0 / 0 is NaN, and
the RSI value is NaN — not 100, and not inside the interval claimed for
every value. -/
theorem c3_flat_series_rsi_nan :
    calculateRSI (List.replicate 15 100) 14 = [JNum.nan] ∧
    JNum.nan ≠ JNum.num 100 := by
  constructor
  · decide
  · decide

/-- Claim C4 (failing input): two ledger opens during the same
millisecond assign the same id (Date.now composes both ids), so
positions with pairwise distinct ids fail. -/
theorem c4_duplicate_ids :
    ((addPosition (addPosition [] 1700000000000 100 1 "buy" 96 106).2
        1700000000000 101 1 "buy" 97 107).2.map (fun p => p.id)) =
      [1700000000000, 1700000000000] ∧
    ¬ ((addPosition (addPosition [] 1700000000000 100 1 "buy" 96 106).2
        1700000000000 101 1 "buy" 97 107).2.map (fun p => p.id)).Nodup := by
  constructor
  · decide
  · decide

/-- Ledger close finds nothing when no position matches the id with open
status, and then leaves the collection untouched. -/
theorem closePosition_none (positions : List Position) (pid : ℤ) (xp : ℚ)
    (now : ℤ) (r : String)
    (h : ∀ p ∈ positions, ¬ (p.id = pid ∧ p.status = "open")) :
    closePosition positions pid xp now r = (none, positions) := by
  induction positions with
  | nil => rfl
  | cons p rest ih =>
    have hp := h p (List.mem_cons_self p rest)
    have ht := ih (fun q hq => h q (List.mem_cons_of_mem p hq))
    simp [closePosition, if_neg hp, ht]

/-- Ledger close on a collection whose ids all differ from the target,
followed by one freshly appended open position with the target id,
closes exactly the appended position. -/
theorem closePosition_append (positions : List Position) (q : Position) (pid : ℤ)
    (xp : ℚ) (now : ℤ) (r : String)
    (hfresh : ∀ p ∈ positions, p.id ≠ pid)
    (hq : q.id = pid) (hopen : q.status = "open") :
    closePosition (positions ++ [q]) pid xp now r =
      (some (closeFields q xp now r), positions ++ [closeFields q xp now r]) := by
  induction positions with
  | nil => simp [closePosition, hq, hopen]
  | cons p rest ih =>
    have hp : ¬ (p.id = pid ∧ p.status = "open") :=
      fun hc => (hfresh p (List.mem_cons_self p rest)) hc.1
    have ht := ih (fun s hs => hfresh s (List.mem_cons_of_mem p hs))
    simp [closePosition, if_neg hp, ht]

/-- Filtering by an id held only by the appended element returns exactly
that element. -/
theorem filter_by_fresh_id (positions : List Position) (c : Position) (pid : ℤ)
    (hfresh : ∀ p ∈ positions, p.id ≠ pid) (hc : c.id = pid) :
    (positions ++ [c]).filter (fun p => p.id = pid) = [c] := by
  induction positions with
  | nil => simp [hc]
  | cons p rest ih =>
    have hp := hfresh p (List.mem_cons_self p rest)
    have ht := ih (fun s hs => hfresh s (List.mem_cons_of_mem p hs))
    simp [List.filter_cons, hp, ht]

/-- Claim C7: an open followed by a close of the returned id yields the
one closed position carrying the direction-aware pnl, that id occurs on
exactly that position, and a second close of the same id returns null
and leaves the ledger unchanged. -/
theorem c7_ledger_round_trip (ps : List Position) (now now2 now3 : ℤ) (e sz : ℚ)
    (dir : String) (sl tp xp xp2 : ℚ) (r r2 : String)
    (hfresh : ∀ p ∈ ps, p.id ≠ now) :
    ∃ c : Position,
      closePosition (addPosition ps now e sz dir sl tp).2
          (addPosition ps now e sz dir sl tp).1.id xp now2 r = (some c, ps ++ [c]) ∧
      c.status = "closed" ∧
      c.pnl = some (if dir = "buy" then (xp - e) * sz else (e - xp) * sz) ∧
      (ps ++ [c]).filter (fun p => p.id = (addPosition ps now e sz dir sl tp).1.id) = [c] ∧
      closePosition (ps ++ [c]) (addPosition ps now e sz dir sl tp).1.id xp2 now3 r2 =
        (none, ps ++ [c]) := by
  refine ⟨closeFields (addPosition ps now e sz dir sl tp).1 xp now2 r, ?_, rfl, rfl, ?_, ?_⟩
  · exact closePosition_append ps _ now xp now2 r hfresh rfl rfl
  · exact filter_by_fresh_id ps _ now hfresh rfl
  · apply closePosition_none
    intro p hp
    rcases List.mem_append.mp hp with hin | hin
    · exact fun hcontra => (hfresh p hin) hcontra.1
    · have hpc : p = closeFields (addPosition ps now e sz dir sl tp).1 xp now2 r :=
        List.mem_singleton.mp hin
      intro hcontra
      rw [hpc] at hcontra
      exact absurd hcontra.2 (by simp [closeFields, addPosition])

/-- Witness for C7: round trip on the empty ledger. -/
theorem c7_ledger_round_trip_witness :
    ∃ c : Position,
      closePosition (addPosition [] 5 100 2 "buy" 96 106).2
          (addPosition [] 5 100 2 "buy" 96 106).1.id 110 6 "Take Profit" =
        (some c, [] ++ [c]) ∧
      c.status = "closed" ∧
      c.pnl = some (if "buy" = "buy" then ((110 : ℚ) - 100) * 2 else ((100 : ℚ) - 110) * 2) ∧
      ([] ++ [c]).filter (fun p => p.id = (addPosition [] 5 100 2 "buy" 96 106).1.id) = [c] ∧
      closePosition ([] ++ [c]) (addPosition [] 5 100 2 "buy" 96 106).1.id 120 7 "again" =
        (none, [] ++ [c]) :=
  c7_ledger_round_trip [] 5 6 7 100 2 "buy" 96 106 110 120 "Take Profit" "again"
    (by simp)

/-- Claim C5 (amended): a successful new-position order increments
consecutiveTrades by exactly one, while a successful scale-in order
leaves it unchanged (the source never touches the trading state in
executeScaleIn). -/
theorem c5_executed_trade_consecutive (signal : SignalRes)
    (currentPrice availableBalance : ℚ) (now : ℤ) (st : TradingState)
    (positions : List Position) (ind : Indicators)
    (hind : signal.indicators = some ind)
    (hnewMin : ¬ (calculatePositionSize availableBalance signal.confidence currentPrice *
      currentPrice < MIN_ORDER_VALUE_USDT))
    (hscaleMin : ¬ (calculatePositionSize availableBalance signal.confidence currentPrice *
      0.5 * currentPrice < MIN_ORDER_VALUE_USDT)) :
    (executeNewPosition signal currentPrice availableBalance (some ⟨"0"⟩) now st
        positions).map (fun res => res.2.1.consecutiveTrades) =
      .ok (st.consecutiveTrades + 1) ∧
    ((executeScaleIn signal currentPrice availableBalance (some ⟨"0"⟩) st
        positions).1.success = true ∧
      (executeScaleIn signal currentPrice availableBalance (some ⟨"0"⟩) st
        positions).2.1.consecutiveTrades = st.consecutiveTrades) := by
  refine ⟨?_, ?_, ?_⟩
  · simp [executeNewPosition, if_neg hnewMin, hind, orderOk, Except.map]
  · simp [executeScaleIn, if_neg hscaleMin, orderOk]
  · simp [executeScaleIn, if_neg hscaleMin, orderOk]

/-- A concrete bullish signal with indicators, for the C5 and C2
concrete evaluations. -/
def sampleSignal : SignalRes := ⟨"bullish", 100, some ⟨JNum.num 50, 1, 1, 1, 100⟩⟩

/-- Witness for C5 (amended) at a concrete trade. -/
theorem c5_executed_trade_consecutive_witness :
    (executeNewPosition sampleSignal 100 1000 (some ⟨"0"⟩) 9 ⟨none, none, 1⟩ []).map
        (fun res => res.2.1.consecutiveTrades) = .ok (1 + 1) ∧
    ((executeScaleIn sampleSignal 100 1000 (some ⟨"0"⟩) ⟨none, none, 1⟩ []).1.success = true ∧
      (executeScaleIn sampleSignal 100 1000 (some ⟨"0"⟩) ⟨none, none, 1⟩
        []).2.1.consecutiveTrades = 1) :=
  c5_executed_trade_consecutive sampleSignal 100 1000 9 ⟨none, none, 1⟩ []
    ⟨JNum.num 50, 1, 1, 1, 100⟩ rfl (by decide) (by decide)

/-- Counterexample for C5 as stated: a successful scale-in order leaves
consecutiveTrades at its previous value, not one greater. -/
theorem c5_counterexample :
    (executeScaleIn sampleSignal 100 1000 (some ⟨"0"⟩) ⟨none, none, 1⟩ []).1.success = true ∧
    (executeScaleIn sampleSignal 100 1000 (some ⟨"0"⟩) ⟨none, none, 1⟩
      []).2.1.consecutiveTrades ≠ 1 + 1 := by decide

/-- Claim C2 (amended): in an enabled cycle that passes the time filter,
with price and at least 50 candles available and a neutral signal, the
cycle exits at the confidence gate (a neutral signal carries confidence
at most 50, below the threshold of 60), so consecutiveTrades keeps its
value from before the cycle; the neutral-reset assignment is never
reached. -/
theorem c2_neutral_cycle_keeps_consecutive (input : CycleInput) (st : BotState)
    (p : ℚ) (cs : List Candle)
    (hen : input.enabled = true) (ht : input.isGoodTime = true)
    (hp : input.currentPrice = some p) (hc : input.recentCandles = some cs)
    (hlen : 50 ≤ cs.length)
    (hneutral : (generateTradingSignal cs).signal = "neutral") :
    (runEnhancedAutoTrade input st).tradingState.consecutiveTrades =
      st.tradingState.consecutiveTrades := by
  have hconf : (generateTradingSignal cs).confidence ≤ 50 :=
    generateTradingSignal_neutral_le cs hneutral
  have hgate : (generateTradingSignal cs).confidence < MIN_SIGNAL_CONFIDENCE := by
    unfold MIN_SIGNAL_CONFIDENCE; linarith
  have h50 : ¬ (cs.length < 50) := by omega
  unfold runEnhancedAutoTrade
  simp only [hen, ht, hp, hc]
  rw [if_neg (fun hcontra => hcontra trivial), if_neg (fun hcontra => hcontra trivial)]
  rw [if_neg h50]
  cases hind : (generateTradingSignal cs).indicators with
  | none => rfl
  | some _ =>
    dsimp only
    rw [if_pos hgate]

/-- The C2 concrete cycle: enabled, good time, price available, fifty
flat candles, and a prior consecutiveTrades of 2. -/
def c2CycleInput : CycleInput :=
  ⟨true, true, some 100, 1000, 0, some flatCandles50, [], none, 0⟩

/-- The C2 concrete prior state. -/
def c2BotState : BotState := ⟨⟨some "buy", some 100, 2⟩, []⟩

/-- Counterexample for C2 as stated: a cycle meeting every hypothesis
and observing a neutral signal ends with consecutiveTrades still at 2,
not 0. -/
theorem c2_counterexample :
    (generateTradingSignal flatCandles50).signal = "neutral" ∧
    (runEnhancedAutoTrade c2CycleInput c2BotState).tradingState.consecutiveTrades = 2 ∧
    (runEnhancedAutoTrade c2CycleInput c2BotState).tradingState.consecutiveTrades ≠ 0 := by
  decide

/-- Witness for C2 (amended) at the concrete cycle. -/
theorem c2_neutral_cycle_keeps_consecutive_witness :
    (runEnhancedAutoTrade c2CycleInput c2BotState).tradingState.consecutiveTrades =
      c2BotState.tradingState.consecutiveTrades :=
  c2_neutral_cycle_keeps_consecutive c2CycleInput c2BotState 100 flatCandles50
    rfl rfl rfl rfl (by decide) (by decide)

/-- Claim C1 (failing input): on 51 strictly rising candles with the
default configuration, the signal at index 50 is bullish with
confidence 200/3 (at least the 60 threshold), the entry block runs, and
runBacktest throws a ReferenceError — the first line of the entry block
reads the shadowing inner positionSize binding inside its temporal dead
zone — instead of opening the position and completing. -/
theorem c1_backtest_reference_error :
    (generateTradingSignal risingCandles51).signal = "bullish" ∧
    (generateTradingSignal risingCandles51).confidence ≥ 60 ∧
    runBacktest risingCandles51 {} = .error .referenceErr := by decide

end TradingBot
